import Mathlib

/-!
# Verification of the Energy Consumption Tracker forecasting core

Shallow embedding of `src/ml_models/energy_predictor.py` (class `EnergyPredictor`)
and the slice of `src/backend/app.py` that the claims reference.

Conventions:
* Machine floats are modelled by `ℚ`; Python's `round(x, n)` (round-half-to-even)
  is modelled exactly by `roundTo`.
* A timestamp is hours since the epoch (`ℕ`); the calendar day of a timestamp is
  `timestamp / 24`, mirroring `pd.to_datetime(df['timestamp']).dt.date`.
* The fitted sklearn regressor is an abstract function `List ℚ → ℚ` (its fitting is
  external library code); the fitted `StandardScaler` is its parameter lists, and
  `transform` is the sklearn transform `(x - mean) / scale`.
* Methods that can raise return `Except PredError _`; methods of the class are also
  given a state-threading variant returning the (possibly updated) predictor, so
  that absence of mutation is a provable statement, not a modelling artifact.
-/

/-- One raw energy record: a row of the DataFrame handed to `EnergyPredictor`
(`timestamp, appliance_name, power_usage_kwh, cost`).  The timestamp is in hours
since the epoch. -/
structure EnergyEvent where
  timestamp : ℕ
  appliance_name : String
  power_usage_kwh : ℚ
  cost : ℚ
  deriving Repr, DecidableEq

/-- `pd.to_datetime(ts).dt.date`: the calendar day (days since epoch) of a record. -/
def eventDate (e : EnergyEvent) : ℕ :=
  e.timestamp / 24

/-- `pandas` `Timestamp.dayofweek`: Monday = 0.  Day 0 (1970-01-01) is a Thursday. -/
def dayOfWeek (d : ℕ) : ℕ :=
  (d + 3) % 7

/-- Gregorian civil date (year, month, day-of-month) from days since 1970-01-01,
the standard era-based algorithm; models `Timestamp.month` / `Timestamp.day`. -/
def civilFromDays (z0 : ℤ) : ℤ × ℤ × ℤ :=
  let z := z0 + 719468
  let era := if 0 ≤ z then z / 146097 else (z - 146096) / 146097
  let doe := z - era * 146097
  let yoe := (doe - doe / 1460 + doe / 36524 - doe / 146096) / 365
  let y := yoe + era * 400
  let doy := doe - (365 * yoe + yoe / 4 - yoe / 100)
  let mp := (5 * doy + 2) / 153
  let dom := doy - (153 * mp + 2) / 5 + 1
  let m := if mp < 10 then mp + 3 else mp - 9
  (if m ≤ 2 then y + 1 else y, m, dom)

/-- `Timestamp.month` of an epoch day. -/
def monthOfDay (d : ℕ) : ℕ :=
  (civilFromDays (d : ℤ)).2.1.toNat

/-- `Timestamp.day` (day of month) of an epoch day. -/
def dayOfMonth (d : ℕ) : ℕ :=
  (civilFromDays (d : ℤ)).2.2.toNat

/-- Insert a date into a sorted duplicate-free list, keeping it sorted and
duplicate-free (models the sorted distinct group keys of `groupby('date')`). -/
def insertDate (d : ℕ) : List ℕ → List ℕ
  | [] => [d]
  | x :: xs =>
    if d < x then d :: x :: xs
    else if d = x then x :: xs
    else x :: insertDate d xs

/-- The sorted distinct calendar dates of an event list: the index of the
`groupby('date')` aggregation. -/
def sortedDates (events : List EnergyEvent) : List ℕ :=
  (events.map eventDate).foldr insertDate []

/-- `l.tail(k)` of pandas: the last `k` elements (all of `l` when `l` is shorter). -/
def tailN (k : ℕ) (l : List α) : List α :=
  l.drop (l.length - k)

/-- pandas `.mean()` over a column (the empty case is never exercised on the
paths we model; `ℚ` division by zero makes it total). -/
def listMean (l : List ℚ) : ℚ :=
  l.sum / l.length

/-- The first present value of an `Option` column, scanning downward:
the value `bfill` propagates into a missing cell. -/
def firstSome : List (Option ℚ) → Option ℚ
  | [] => none
  | some x :: _ => some x
  | none :: xs => firstSome xs

/-- `fillna(method='bfill').fillna(0)` on one column: each missing cell takes the
nearest later present value, and `0` when no later value exists. -/
def bfill0 : List (Option ℚ) → List ℚ
  | [] => []
  | x :: xs =>
    (match x with
     | some v => v
     | none => (firstSome xs).getD 0) :: bfill0 xs

/-- One row of the daily aggregation produced by `EnergyPredictor.aggregate_daily`. -/
structure DailyRecord where
  date : ℕ
  total_kwh : ℚ
  total_cost : ℚ
  num_uses : ℕ
  day_of_week : ℕ
  day_of_month : ℕ
  month : ℕ
  is_weekend : ℕ
  prev_day_kwh : ℚ
  prev_week_kwh : ℚ
  avg_last_7days : ℚ
  avg_last_30days : ℚ
  deriving Repr, DecidableEq, Inhabited

/-- The `total_kwh` column before lag features: per sorted date, the sum of
`power_usage_kwh` over that day's events. -/
def dailyTotals (events : List EnergyEvent) : List ℚ :=
  (sortedDates events).map fun d =>
    ((events.filter (fun e => eventDate e = d)).map (·.power_usage_kwh)).sum

/-- The `prev_day_kwh` column: `shift(1)` then `bfill` then fill `0`. -/
def prevDayCol (totals : List ℚ) : List ℚ :=
  bfill0 ((List.range totals.length).map fun i =>
    if 1 ≤ i then some (totals.getD (i - 1) 0) else none)

/-- The `prev_week_kwh` column: `shift(7)` then `bfill` then fill `0`. -/
def prevWeekCol (totals : List ℚ) : List ℚ :=
  bfill0 ((List.range totals.length).map fun i =>
    if 7 ≤ i then some (totals.getD (i - 7) 0) else none)

/-- `rolling(window=w, min_periods=1).mean()` at row `i`: mean of the trailing
window of up to `w` values ending at (and including) row `i`. -/
def rollMean (w : ℕ) (totals : List ℚ) (i : ℕ) : ℚ :=
  listMean (tailN w (totals.take (i + 1)))

/-- `EnergyPredictor.aggregate_daily`: group events by calendar date (sorted
ascending), sum energy and cost, count uses, add temporal features, add the four
lag columns, and back-fill their undefined cells (`bfill` then `0`). -/
def aggregateDaily (events : List EnergyEvent) : List DailyRecord :=
  let dates := sortedDates events
  let totals := dailyTotals events
  let n := dates.length
  let pd := prevDayCol totals
  let pw := prevWeekCol totals
  (List.range n).map fun i =>
    let d := dates.getD i 0
    { date := d
      total_kwh := totals.getD i 0
      total_cost := ((events.filter (fun e => eventDate e = d)).map (·.cost)).sum
      num_uses := (events.filter (fun e => eventDate e = d)).length
      day_of_week := dayOfWeek d
      day_of_month := dayOfMonth d
      month := monthOfDay d
      is_weekend := if 5 ≤ dayOfWeek d then 1 else 0
      prev_day_kwh := pd.getD i 0
      prev_week_kwh := pw.getD i 0
      avg_last_7days := rollMean 7 totals i
      avg_last_30days := rollMean 30 totals i }

/-- Round-half-to-even to an integer: the tie-breaking rule of Python's `round`. -/
def roundHalfEven (q : ℚ) : ℤ :=
  let f := ⌊q⌋
  let frac := q - f
  if frac < 1 / 2 then f
  else if 1 / 2 < frac then f + 1
  else if f % 2 = 0 then f else f + 1

/-- Python's `round(x, n)`: round-half-to-even at the `n`-th decimal. -/
def roundTo (n : ℕ) (q : ℚ) : ℚ :=
  (roundHalfEven (q * 10 ^ n) : ℚ) / 10 ^ n

/-- Fitted `StandardScaler` parameters (`mean_`, `scale_`). -/
structure Scaler where
  mean : List ℚ
  scale : List ℚ
  deriving Repr, DecidableEq

/-- Pointwise `(x - mean) / scale`. -/
def scaleList : List ℚ → List ℚ → List ℚ → List ℚ
  | x :: xs, m :: ms, s :: ss => (x - m) / s :: scaleList xs ms ss
  | _, _, _ => []

/-- `StandardScaler.transform` on one row. -/
def Scaler.transform (sc : Scaler) (x : List ℚ) : List ℚ :=
  scaleList x sc.mean sc.scale

/-- The in-memory state of an `EnergyPredictor` instance: fitted regressor
(abstract), fitted scaler, label encoders (appliance vocabulary per encoded
column), feature name order and the trained flag. -/
structure Predictor where
  model : List ℚ → ℚ
  scaler : Scaler
  label_encoders : List (String × List String)
  feature_names : List String
  is_trained : Bool

/-- `self.model.predict(self.scaler.transform([x]))[0]`: one prediction of the
fitted pipeline on a raw feature vector. -/
def predictOne (p : Predictor) (x : List ℚ) : ℚ :=
  p.model (p.scaler.transform x)

/-- The errors the modelled methods can raise.  `notTrained` is the
`ValueError("Model must be trained before making predictions")` /
`ValueError("No trained model to save")` pair; `emptyHistory` is the unhandled
pandas exception when `predict_next_days` runs on an empty history
(`.iloc[-1]` on an empty column); `fileNotFound` is the `FileNotFoundError`
of `load_model`. -/
inductive PredError where
  | notTrained
  | emptyHistory
  | fileNotFound
  deriving Repr, DecidableEq

/-- One row of the prediction DataFrame returned by `predict_next_days`. -/
structure ForecastPoint where
  date : ℕ
  predicted_kwh : ℚ
  predicted_cost : ℚ
  confidence_score : ℚ
  deriving Repr, DecidableEq, Inhabited

/-- The loop-invariant context of `predict_next_days`: everything computed from
history before the day loop and held constant across the horizon. -/
structure ForecastCtx where
  lastDate : ℕ
  numUses : ℚ
  prevWeek : ℚ
  avg7 : ℚ
  avg30 : ℚ
  deriving Repr, DecidableEq

/-- The feature dict built at loop step `day` of `predict_next_days`, in the
order of `self.feature_names` (`feature_cols` fixed by `train`):
`[day_of_week, day_of_month, month, is_weekend, num_uses, prev_day_kwh,
prev_week_kwh, avg_last_7days, avg_last_30days]`. -/
def stepFeatures (ctx : ForecastCtx) (day : ℕ) (prevDay : ℚ) : List ℚ :=
  let pd := ctx.lastDate + day
  [ (dayOfWeek pd : ℚ), (dayOfMonth pd : ℚ), (monthOfDay pd : ℚ),
    (if 5 ≤ dayOfWeek pd then (1 : ℚ) else 0),
    ctx.numUses, prevDay, ctx.prevWeek, ctx.avg7, ctx.avg30 ]

/-- One iteration body of the day loop: scale, predict, convert to cost
(`predicted_cost` from the unrounded prediction), round and append. -/
def mkForecastPoint (p : Predictor) (ctx : ForecastCtx) (tariff_rate : ℚ)
    (day : ℕ) (prevDay : ℚ) : ForecastPoint :=
  let predicted_kwh := p.model (p.scaler.transform (stepFeatures ctx day prevDay))
  { date := ctx.lastDate + day
    predicted_kwh := roundTo 4 predicted_kwh
    predicted_cost := roundTo 2 (predicted_kwh * tariff_rate)
    confidence_score := 85 / 100 }

/-- The day loop of `predict_next_days`: `k` remaining iterations, current `day`
counter, and `prevDay` = `total_kwh.iloc[-1]` on the first iteration, afterwards
`predictions[-1]['predicted_kwh']` (the rounded previous output). -/
def forecastLoop (p : Predictor) (ctx : ForecastCtx) (tariff_rate : ℚ) :
    ℕ → ℕ → ℚ → List ForecastPoint
  | 0, _, _ => []
  | k + 1, day, prevDay =>
    let pt := mkForecastPoint p ctx tariff_rate day prevDay
    pt :: forecastLoop p ctx tariff_rate k (day + 1) pt.predicted_kwh

/-- The history-derived quantities of `predict_next_days`, computed once before
the day loop and held constant across the horizon: `last_date` (the column max),
`num_uses` (mean over the 30-day tail), `prev_week_kwh` (value 7 rows from the
end when at least 7 days exist, else the overall mean), and the two trailing
means over the tail of observed history. -/
def forecastContext (events : List EnergyEvent) : ForecastCtx :=
  let daily := aggregateDaily events
  let recent := tailN 30 daily
  { lastDate := (daily.map (·.date)).foldr max 0
    numUses := listMean (recent.map fun r => (r.num_uses : ℚ))
    prevWeek :=
      if 7 ≤ daily.length then (daily.getD (daily.length - 7) default).total_kwh
      else listMean (daily.map (·.total_kwh))
    avg7 := listMean ((tailN 7 recent).map (·.total_kwh))
    avg30 := listMean (recent.map (·.total_kwh)) }

/-- `EnergyPredictor.predict_next_days(historical_df, days, tariff_rate)`. -/
def predictNextDays (p : Predictor) (events : List EnergyEvent) (days : ℕ)
    (tariff_rate : ℚ) : Except PredError (List ForecastPoint) :=
  if p.is_trained = false then .error .notTrained
  else
    let daily := aggregateDaily events
    if h : daily = [] then .error .emptyHistory
    else
      .ok (forecastLoop p (forecastContext events) tariff_rate days 1
        ((daily.getLast h).total_kwh))

/-- The monthly summary dict returned by `predict_monthly`. -/
structure MonthlyForecast where
  predicted_monthly_kwh : ℚ
  predicted_monthly_cost : ℚ
  daily_predictions : List ForecastPoint
  deriving Repr, DecidableEq

/-- `EnergyPredictor.predict_monthly`: a fixed 30-day run of `predict_next_days`,
column sums rounded to 2 decimals. -/
def predictMonthly (p : Predictor) (events : List EnergyEvent) (tariff_rate : ℚ) :
    Except PredError MonthlyForecast :=
  (predictNextDays p events 30 tariff_rate).map fun pts =>
    { predicted_monthly_kwh := roundTo 2 (pts.map (·.predicted_kwh)).sum
      predicted_monthly_cost := roundTo 2 (pts.map (·.predicted_cost)).sum
      daily_predictions := pts }

/-- State-threading variant of `predict_next_days`: the method body reads
`self` but performs no field assignment, so the returned state is the input
state. -/
def predictNextDaysS (p : Predictor) (events : List EnergyEvent) (days : ℕ)
    (tariff_rate : ℚ) : Except PredError (List ForecastPoint) × Predictor :=
  (predictNextDays p events days tariff_rate, p)

/-- State-threading variant of `predict_monthly`: it only calls
`predict_next_days`, which does not mutate `self`. -/
def predictMonthlyS (p : Predictor) (events : List EnergyEvent) (tariff_rate : ℚ) :
    Except PredError MonthlyForecast × Predictor :=
  ((predictNextDaysS p events 30 tariff_rate).1.map fun pts =>
    { predicted_monthly_kwh := roundTo 2 (pts.map (·.predicted_kwh)).sum
      predicted_monthly_cost := roundTo 2 (pts.map (·.predicted_cost)).sum
      daily_predictions := pts },
   (predictNextDaysS p events 30 tariff_rate).2)

/-- The serialized bundle of `save_model` / `load_model` (`model_data`):
regressor, scaler, encoders, feature order, training timestamp. -/
structure ModelBundle where
  model : List ℚ → ℚ
  scaler : Scaler
  label_encoders : List (String × List String)
  feature_names : List String
  trained_at : ℕ

/-- `EnergyPredictor.save_model`: refuses when untrained, otherwise serializes
the bundle (`joblib.dump` modelled as producing the bundle value). -/
def saveModel (p : Predictor) (now : ℕ) : Except PredError ModelBundle :=
  if p.is_trained = false then .error .notTrained
  else
    .ok { model := p.model, scaler := p.scaler, label_encoders := p.label_encoders,
          feature_names := p.feature_names, trained_at := now }

/-- `EnergyPredictor.load_model`: the file is an `Option ModelBundle`; a missing
file raises, otherwise every persisted field is restored and the trained flag
set. -/
def loadModel (_p : Predictor) (file : Option ModelBundle) :
    Except PredError Predictor :=
  match file with
  | none => .error .fileNotFound
  | some b =>
      .ok { model := b.model, scaler := b.scaler, label_encoders := b.label_encoders,
            feature_names := b.feature_names, is_trained := true }

/-- `train_test_split(X, y, test_size, shuffle=False)` on the row indices:
sklearn takes `n_test = ceil(test_size * n)` and, with shuffling disabled,
returns the first `n - n_test` rows as train and the last `n_test` as test. -/
def trainSplit (rows : List α) (test_size : ℚ) : List α × List α :=
  let n := rows.length
  let nTest := (⌈test_size * (n : ℚ)⌉).toNat
  (rows.take (n - nTest), rows.drop (n - nTest))

/-! ## Concrete fixtures used by witnesses and counterexamples -/

/-- `feature_cols` as fixed by `EnergyPredictor.train`. -/
def featureCols : List String :=
  ["day_of_week", "day_of_month", "month", "is_weekend", "num_uses",
   "prev_day_kwh", "prev_week_kwh", "avg_last_7days", "avg_last_30days"]

/-- An identity scaler over the 9 features (mean 0, scale 1). -/
def idScaler : Scaler :=
  { mean := List.replicate 9 0, scale := List.replicate 9 1 }

/-- A trained predictor whose fitted regressor is the constant `c`. -/
def constPredictor (c : ℚ) : Predictor :=
  { model := fun _ => c, scaler := idScaler,
    label_encoders := [("appliance_name", ["AC", "TV"])],
    feature_names := featureCols, is_trained := true }

/-- A freshly constructed predictor: neither `train` nor `load_model` has run. -/
def freshPredictor : Predictor :=
  { model := fun _ => 0, scaler := { mean := [], scale := [] },
    label_encoders := [], feature_names := [], is_trained := false }

/-- One event on epoch day 0. -/
def evDay0 : EnergyEvent :=
  { timestamp := 0, appliance_name := "AC", power_usage_kwh := 5, cost := 1 }

/-- One event on epoch day 1. -/
def evDay1 : EnergyEvent :=
  { timestamp := 24, appliance_name := "TV", power_usage_kwh := 3, cost := 2 }

/-- Eight events on eight consecutive days (day `k` uses `k + 1` kWh). -/
def weekEvents : List EnergyEvent :=
  (List.range 8).map fun k =>
    { timestamp := 24 * k, appliance_name := "AC",
      power_usage_kwh := (k : ℚ) + 1, cost := 1 }

/-! ## Claim C7: save/load round-trip -/

/-- **C7**: saving a trained predictor's bundle and loading it into a fresh
predictor yields a predictor whose prediction on any feature vector equals the
original's (exactly, in the `ℚ` model). -/
theorem c7_save_load_roundtrip (p fresh : Predictor) (now : ℕ) (b : ModelBundle)
    (p' : Predictor) (x : List ℚ)
    (hs : saveModel p now = .ok b) (hl : loadModel fresh (some b) = .ok p') :
    predictOne p' x = predictOne p x := by
  unfold saveModel at hs
  split at hs
  · exact absurd hs (by simp)
  · rw [Except.ok.injEq] at hs
    unfold loadModel at hl
    rw [Except.ok.injEq] at hl
    subst hs
    subst hl
    rfl

/-- The bundle `save_model` produces for `constPredictor 2` at time 0. -/
def c7Bundle : ModelBundle :=
  { model := (constPredictor 2).model, scaler := idScaler,
    label_encoders := [("appliance_name", ["AC", "TV"])],
    feature_names := featureCols, trained_at := 0 }

/-- The predictor `load_model` restores from `c7Bundle`. -/
def c7Loaded : Predictor :=
  { model := c7Bundle.model, scaler := c7Bundle.scaler,
    label_encoders := c7Bundle.label_encoders,
    feature_names := c7Bundle.feature_names, is_trained := true }

/-- Witness for C7 at a concrete predictor, bundle and feature vector. -/
theorem c7_save_load_roundtrip_witness :
    saveModel (constPredictor 2) 0 = .ok c7Bundle ∧
    loadModel freshPredictor (some c7Bundle) = .ok c7Loaded ∧
    predictOne c7Loaded [1, 2, 3, 4, 5, 6, 7, 8, 9]
      = predictOne (constPredictor 2) [1, 2, 3, 4, 5, 6, 7, 8, 9] :=
  ⟨rfl, rfl,
   c7_save_load_roundtrip (constPredictor 2) freshPredictor 0 c7Bundle c7Loaded
     [1, 2, 3, 4, 5, 6, 7, 8, 9] rfl rfl⟩

/-! ## Claim C8: untrained rejection -/

/-- **C8**: on a predictor where neither `train` nor `load_model` has succeeded
(`is_trained = false`), both the daily and the monthly forecast raise the
not-trained error, and neither mutates the predictor (in particular nothing is
trained as a side effect). -/
theorem c8_untrained_rejection (p : Predictor) (events : List EnergyEvent)
    (days : ℕ) (t : ℚ) (hp : p.is_trained = false) :
    (predictNextDaysS p events days t).1 = .error .notTrained ∧
    (predictNextDaysS p events days t).2 = p ∧
    (predictMonthlyS p events t).1 = .error .notTrained ∧
    (predictMonthlyS p events t).2 = p := by
  unfold predictMonthlyS predictNextDaysS predictNextDays
  simp [hp, Except.map]

/-- Witness for C8 on a freshly constructed predictor. -/
theorem c8_untrained_rejection_witness :
    freshPredictor.is_trained = false ∧
    ((predictNextDaysS freshPredictor [evDay0] 7 1).1 = .error .notTrained ∧
     (predictNextDaysS freshPredictor [evDay0] 7 1).2 = freshPredictor ∧
     (predictMonthlyS freshPredictor [evDay0] 1).1 = .error .notTrained ∧
     (predictMonthlyS freshPredictor [evDay0] 1).2 = freshPredictor) :=
  ⟨rfl, c8_untrained_rejection freshPredictor [evDay0] 7 1 rfl⟩

/-! ## Claim C9: chronological train/test split -/

/-- **C9**: `train`'s split of the aggregated daily series is chronological and
shuffle-free: the rows are partitioned into a prefix (train) and a suffix
(test), the test set is exactly the last `⌈test_fraction * n⌉` rows, and
concatenating the parts restores the series in order. -/
theorem c9_chronological_split (events : List EnergyEvent) (t : ℚ)
    (tr te : List DailyRecord) (h0 : 0 ≤ t) (h1 : t ≤ 1)
    (hsplit : trainSplit (aggregateDaily events) t = (tr, te)) :
    tr ++ te = aggregateDaily events ∧
    te.length = (⌈t * ((aggregateDaily events).length : ℚ)⌉).toNat ∧
    tr.length = (aggregateDaily events).length - te.length ∧
    tr = (aggregateDaily events).take tr.length ∧
    te = (aggregateDaily events).drop tr.length := by
  simp only [trainSplit] at hsplit
  rw [Prod.mk.injEq] at hsplit
  obtain ⟨htr, hte⟩ := hsplit
  subst htr
  subst hte
  have hkn : (⌈t * ((aggregateDaily events).length : ℚ)⌉).toNat
      ≤ (aggregateDaily events).length := by
    rw [Int.toNat_le, Int.ceil_le]
    calc t * ((aggregateDaily events).length : ℚ)
        ≤ 1 * ((aggregateDaily events).length : ℚ) :=
          mul_le_mul_of_nonneg_right h1 (by positivity)
      _ = (((aggregateDaily events).length : ℤ) : ℚ) := by push_cast; ring
  refine ⟨List.take_append_drop _ _, ?_, ?_, ?_, ?_⟩
  · rw [List.length_drop]
    omega
  · rw [List.length_take, List.length_drop]
    omega
  · rw [List.length_take]
    congr 1
    omega
  · rw [List.length_take]
    congr 1
    omega

/-- The concrete split of the C9 witness: two aggregated days at
`test_fraction = 0.2` give `n_test = ⌈0.4⌉ = 1`. -/
lemma c9SplitEq :
    trainSplit (aggregateDaily [evDay0, evDay1]) (2 / 10)
      = ((aggregateDaily [evDay0, evDay1]).take 1,
         (aggregateDaily [evDay0, evDay1]).drop 1) := by
  have hlen : (aggregateDaily [evDay0, evDay1]).length = 2 := rfl
  have hc : (⌈(2 : ℚ) / 5⌉ : ℤ) = 1 := by
    rw [Int.ceil_eq_iff] <;> norm_num
  simp only [trainSplit, hlen]
  norm_num [hc, List.drop_one]

/-- Witness for C9: two aggregated days, `test_fraction = 0.2`, so the test set
is the single most recent row. -/
theorem c9_chronological_split_witness :
    (0 : ℚ) ≤ 2 / 10 ∧ (2 : ℚ) / 10 ≤ 1 ∧
    trainSplit (aggregateDaily [evDay0, evDay1]) (2 / 10)
      = ((aggregateDaily [evDay0, evDay1]).take 1,
         (aggregateDaily [evDay0, evDay1]).drop 1) ∧
    ((aggregateDaily [evDay0, evDay1]).take 1 ++ (aggregateDaily [evDay0, evDay1]).drop 1
        = aggregateDaily [evDay0, evDay1] ∧
     ((aggregateDaily [evDay0, evDay1]).drop 1).length
        = (⌈(2 : ℚ) / 10 * (((aggregateDaily [evDay0, evDay1]).length : ℚ))⌉).toNat ∧
     ((aggregateDaily [evDay0, evDay1]).take 1).length
        = (aggregateDaily [evDay0, evDay1]).length
            - ((aggregateDaily [evDay0, evDay1]).drop 1).length ∧
     (aggregateDaily [evDay0, evDay1]).take 1
        = (aggregateDaily [evDay0, evDay1]).take
            (((aggregateDaily [evDay0, evDay1]).take 1).length) ∧
     (aggregateDaily [evDay0, evDay1]).drop 1
        = (aggregateDaily [evDay0, evDay1]).drop
            (((aggregateDaily [evDay0, evDay1]).take 1).length)) :=
  ⟨by norm_num, by norm_num, c9SplitEq,
   c9_chronological_split [evDay0, evDay1] (2 / 10) _ _ (by norm_num) (by norm_num)
     c9SplitEq⟩

/-! ## Claim C10: forecasting is read-only on predictor state -/

/-- **C10**: daily and monthly forecasting leave the predictor state (fitted
regressor, scaler parameters, encoders, feature order, trained flag) unchanged,
and a repeated forecast from the resulting state is identical to the first. -/
theorem c10_forecast_readonly (p : Predictor) (events : List EnergyEvent)
    (days : ℕ) (t : ℚ) (hp : p.is_trained = true) :
    (predictNextDaysS p events days t).2 = p ∧
    (predictMonthlyS p events t).2 = p ∧
    predictNextDaysS ((predictNextDaysS p events days t).2) events days t
      = predictNextDaysS p events days t :=
  ⟨rfl, rfl, rfl⟩

/-- Witness for C10 on a concrete trained predictor. -/
theorem c10_forecast_readonly_witness :
    (constPredictor 2).is_trained = true ∧
    ((predictNextDaysS (constPredictor 2) [evDay0] 7 1).2 = constPredictor 2 ∧
     (predictMonthlyS (constPredictor 2) [evDay0] 1).2 = constPredictor 2 ∧
     predictNextDaysS ((predictNextDaysS (constPredictor 2) [evDay0] 7 1).2) [evDay0] 7 1
       = predictNextDaysS (constPredictor 2) [evDay0] 7 1) :=
  ⟨rfl, c10_forecast_readonly (constPredictor 2) [evDay0] 7 1 rfl⟩

/-! ## Structure of `predict_next_days` runs -/

lemma insertDate_ne_nil (d : ℕ) (l : List ℕ) : insertDate d l ≠ [] := by
  cases l with
  | nil => simp [insertDate]
  | cons x xs =>
    simp only [insertDate]
    split
    · simp
    · split <;> simp

lemma sortedDates_ne_nil (e : EnergyEvent) (es : List EnergyEvent) :
    sortedDates (e :: es) ≠ [] := by
  simp only [sortedDates, List.map_cons, List.foldr_cons]
  exact insertDate_ne_nil _ _

lemma aggregateDaily_length (events : List EnergyEvent) :
    (aggregateDaily events).length = (sortedDates events).length := by
  unfold aggregateDaily
  simp

lemma aggregateDaily_ne_nil (events : List EnergyEvent) (h : events ≠ []) :
    aggregateDaily events ≠ [] := by
  obtain ⟨e, es, rfl⟩ := List.exists_cons_of_ne_nil h
  intro hc
  have hlen := congrArg List.length hc
  rw [aggregateDaily_length] at hlen
  simp only [List.length_nil] at hlen
  exact sortedDates_ne_nil e es (List.length_eq_zero.mp hlen)

/-- A successful run of `predict_next_days` is exactly the day loop started at
day 1 with `prev_day_kwh` seeded from the last observed daily total. -/
lemma predictNextDays_ok (p : Predictor) (events : List EnergyEvent) (days : ℕ)
    (t : ℚ) (hp : p.is_trained = true) (hne : aggregateDaily events ≠ []) :
    predictNextDays p events days t
      = .ok (forecastLoop p (forecastContext events) t days 1
          (((aggregateDaily events).getLast hne).total_kwh)) := by
  simp only [predictNextDays, hp]
  rw [if_neg (by simp), dif_neg hne]

lemma forecastLoop_length (p : Predictor) (ctx : ForecastCtx) (t : ℚ) :
    ∀ k day prev, (forecastLoop p ctx t k day prev).length = k := by
  intro k
  induction k with
  | zero => intro day prev; rfl
  | succ n ih =>
    intro day prev
    simp only [forecastLoop, List.length_cons, ih]

lemma forecastLoop_getD_date (p : Predictor) (ctx : ForecastCtx) (t : ℚ) :
    ∀ k day prev j, j < k →
      ((forecastLoop p ctx t k day prev).getD j default).date
        = ctx.lastDate + day + j := by
  intro k
  induction k with
  | zero => intro day prev j hj; omega
  | succ n ih =>
    intro day prev j hj
    cases j with
    | zero => rfl
    | succ m =>
      simp only [forecastLoop, List.getD_cons_succ]
      rw [ih (day + 1) _ m (by omega)]
      omega

/-! ## Claim C2: insufficient-data boundary -/

/-- A third event, on epoch day 2. -/
def evDay2 : EnergyEvent :=
  { timestamp := 48, appliance_name := "AC", power_usage_kwh := 4, cost := 1 }

/-- Seven events on seven consecutive days. -/
def sevenDayEvents : List EnergyEvent :=
  (List.range 7).map fun k =>
    { timestamp := 24 * k, appliance_name := "AC",
      power_usage_kwh := (k : ℚ) + 1, cost := 1 }

/-- **C2 counterexample**: a trained predictor forecasting over a history that
aggregates to only 3 daily rows does *not* raise — `predict_next_days` has no
minimum-history check and substitutes the overall mean for `prev_week_kwh`. -/
theorem c2_counterexample :
    (aggregateDaily [evDay0, evDay1, evDay2]).length = 3 ∧
    (predictNextDays (constPredictor 2) [evDay0, evDay1, evDay2] 7 (12 / 100)).isOk
      = true :=
  ⟨rfl, rfl⟩

/-- **C2 (amended)**: forecasting never raises an insufficient-data error: for
every trained predictor and every history with at least one aggregated day
(seven or fewer than seven alike), `predict_next_days` returns a full forecast
of the requested length.  (The HTTP layer separately rejects requests with
fewer than 7 raw records — raw events, not aggregated days.) -/
theorem c2_forecast_succeeds (p : Predictor) (events : List EnergyEvent)
    (days : ℕ) (t : ℚ) (hp : p.is_trained = true)
    (hne : aggregateDaily events ≠ []) :
    ∃ pts, predictNextDays p events days t = .ok pts ∧ pts.length = days :=
  ⟨_, predictNextDays_ok p events days t hp hne,
   forecastLoop_length p (forecastContext events) t days 1 _⟩

/-- Witness for amended C2 at exactly 7 aggregated days (the boundary the
original claim singles out): the forecast succeeds with the full horizon. -/
theorem c2_forecast_succeeds_witness :
    (constPredictor 2).is_trained = true ∧
    aggregateDaily sevenDayEvents ≠ [] ∧
    (aggregateDaily sevenDayEvents).length = 7 ∧
    (∃ pts, predictNextDays (constPredictor 2) sevenDayEvents 7 1 = .ok pts ∧
      pts.length = 7) :=
  ⟨rfl, by decide, rfl,
   c2_forecast_succeeds (constPredictor 2) sevenDayEvents 7 1 rfl (by decide)⟩

/-! ## Claim C3: horizon length and date spacing -/

/-- **C3**: a successful forecast over a non-empty history returns exactly `N`
points whose dates are `last_date + 1, last_date + 2, …, last_date + N` where
`last_date` is the maximum date of the aggregated history — so the dates are
strictly increasing, one calendar day apart, starting one day after the last
observed day. -/
theorem c3_horizon_dates (p : Predictor) (events : List EnergyEvent) (N : ℕ)
    (t : ℚ) (hp : p.is_trained = true) (hne : events ≠ []) (hN : 1 ≤ N) :
    ∃ pts, predictNextDays p events N t = .ok pts ∧ pts.length = N ∧
      ∀ k, k < N → (pts.getD k default).date
        = ((aggregateDaily events).map (·.date)).foldr max 0 + (k + 1) := by
  have hagg := aggregateDaily_ne_nil events hne
  refine ⟨_, predictNextDays_ok p events N t hp hagg,
    forecastLoop_length p (forecastContext events) t N 1 _, ?_⟩
  intro k hk
  rw [forecastLoop_getD_date p (forecastContext events) t N 1 _ k hk]
  have hctx : (forecastContext events).lastDate
      = ((aggregateDaily events).map (·.date)).foldr max 0 := rfl
  rw [hctx]
  omega

/-- Witness for C3: a 2-day horizon over a single observed day (epoch day 0),
giving forecast dates 1 and 2. -/
theorem c3_horizon_dates_witness :
    (constPredictor 2).is_trained = true ∧ ([evDay0] : List EnergyEvent) ≠ [] ∧
    (1 : ℕ) ≤ 2 ∧
    (∃ pts, predictNextDays (constPredictor 2) [evDay0] 2 1 = .ok pts ∧
      pts.length = 2 ∧
      ∀ k, k < 2 → (pts.getD k default).date
        = ((aggregateDaily [evDay0]).map (·.date)).foldr max 0 + (k + 1)) :=
  ⟨rfl, by simp, by norm_num,
   c3_horizon_dates (constPredictor 2) [evDay0] 2 1 rfl (by simp) (by norm_num)⟩

/-! ## Per-point structure of the day loop -/

/-- Inversion: any successful `predict_next_days` run produced its points by the
day loop from day 1, for some seed `prev`. -/
lemma predictNextDays_ok_inv (p : Predictor) (events : List EnergyEvent)
    (N : ℕ) (t : ℚ) (pts : List ForecastPoint)
    (hok : predictNextDays p events N t = .ok pts) :
    ∃ prev, pts = forecastLoop p (forecastContext events) t N 1 prev := by
  simp only [predictNextDays] at hok
  split at hok
  · exact absurd hok (by simp)
  · split at hok
    · exact absurd hok (by simp)
    · rw [Except.ok.injEq] at hok
      exact ⟨_, hok.symm⟩

/-- Every point emitted by the day loop has `predicted_kwh` equal to the raw
model output rounded to 4 decimals, `predicted_cost` equal to the *unrounded*
output times the tariff rounded to 2 decimals, and the constant confidence. -/
lemma forecastLoop_mem_spec (p : Predictor) (ctx : ForecastCtx) (t : ℚ) :
    ∀ k day prev pt, pt ∈ forecastLoop p ctx t k day prev →
      ∃ raw, pt.predicted_kwh = roundTo 4 raw ∧
        pt.predicted_cost = roundTo 2 (raw * t) ∧
        pt.confidence_score = 85 / 100 := by
  intro k
  induction k with
  | zero => intro day prev pt h; simp [forecastLoop] at h
  | succ n ih =>
    intro day prev pt h
    rw [forecastLoop, List.mem_cons] at h
    rcases h with rfl | h
    · exact ⟨p.model (p.scaler.transform (stepFeatures ctx day prev)), rfl, rfl, rfl⟩
    · exact ih _ _ _ h

/-! ## Claim C4: cost equation per forecast point -/

/-- With a constant regressor, the day loop emits one identical rounded point
per day at consecutive dates. -/
lemma forecastLoop_const (c t kwhV costV : ℚ) (ctx : ForecastCtx)
    (hk : roundTo 4 c = kwhV) (hc : roundTo 2 (c * t) = costV) :
    ∀ k day prev, forecastLoop (constPredictor c) ctx t k day prev
      = (List.range k).map fun j =>
          { date := ctx.lastDate + (day + j), predicted_kwh := kwhV,
            predicted_cost := costV, confidence_score := 85 / 100 } := by
  intro k
  induction k with
  | zero => intro day prev; rfl
  | succ n ih =>
    intro day prev
    rw [forecastLoop, List.range_succ_eq_map, List.map_cons]
    congr 1
    · simp [mkForecastPoint, constPredictor, hk, hc]
    · rw [ih, List.map_map]
      apply List.map_congr_left
      intro j _
      simp only [Function.comp_apply, ForecastPoint.mk.injEq]
      exact ⟨by omega, trivial, trivial, trivial⟩

/-- The mean date of `forecastContext` over the single-day history `[evDay0]`
is epoch day 0. -/
lemma forecastContext_evDay0_lastDate : (forecastContext [evDay0]).lastDate = 0 := by
  have h : (aggregateDaily [evDay0]).map (·.date) = [0] := rfl
  simp [forecastContext, h]

/-- A trained predictor whose regressor always outputs 0.00006 kWh. -/
def c4Pred : Predictor := constPredictor (6 / 100000)

/-- **C4 counterexample**: with raw prediction 0.00006 and tariff 1000 the code
stores `predicted_cost = round(0.00006 * 1000, 2) = 0.06`, but the claim's
equation demands `round(predicted_kwh * 1000, 2) = round(0.0001 * 1000, 2) =
0.1` — the cost is computed from the *unrounded* energy, not the returned
4-decimal value. -/
theorem c4_counterexample :
    (((predictNextDays c4Pred [evDay0] 1 1000).toOption.getD []).getD 0
        default).predicted_cost
      ≠ roundTo 2
          ((((predictNextDays c4Pred [evDay0] 1 1000).toOption.getD []).getD 0
              default).predicted_kwh * 1000) := by
  have hne : aggregateDaily [evDay0] ≠ [] := by decide
  have hk : roundTo 4 (6 / 100000) = 1 / 10000 := by
    norm_num [roundTo, roundHalfEven]
  have hc : roundTo 2 (6 / 100000 * 1000) = 6 / 100 := by
    norm_num [roundTo, roundHalfEven]
  have hok2 : predictNextDays c4Pred [evDay0] 1 1000
      = .ok [{ date := (forecastContext [evDay0]).lastDate + (1 + 0),
               predicted_kwh := 1 / 10000, predicted_cost := 6 / 100,
               confidence_score := 85 / 100 }] := by
    rw [predictNextDays_ok c4Pred [evDay0] 1 1000 rfl hne]
    exact congrArg Except.ok
      (forecastLoop_const (6 / 100000) 1000 (1 / 10000) (6 / 100)
        (forecastContext [evDay0]) hk hc 1 1 _)
  rw [hok2]
  simp only [Except.toOption, Option.getD_some, List.getD_cons_zero]
  norm_num [roundTo, roundHalfEven]

/-- **C4 (amended)**: each forecast point satisfies
`predicted_cost = round(raw * tariff, 2)` and `predicted_kwh = round(raw, 4)`
for the same raw (unrounded) model output — the cost equation holds with the
unrounded energy, not with the returned rounded value. -/
theorem c4_cost_equation (p : Predictor) (events : List EnergyEvent) (N : ℕ)
    (t : ℚ) (pts : List ForecastPoint)
    (hok : predictNextDays p events N t = .ok pts) :
    ∀ pt ∈ pts, ∃ raw, pt.predicted_kwh = roundTo 4 raw ∧
      pt.predicted_cost = roundTo 2 (raw * t) := by
  obtain ⟨prev, hpts⟩ := predictNextDays_ok_inv p events N t pts hok
  intro pt hpt
  obtain ⟨raw, hk, hc, _⟩ :=
    forecastLoop_mem_spec p (forecastContext events) t N 1 prev pt (hpts ▸ hpt)
  exact ⟨raw, hk, hc⟩

/-- The two points of a 2-day forecast of `constPredictor 2` over `[evDay0]`
at tariff 1. -/
def pts2 : List ForecastPoint :=
  [{ date := 1, predicted_kwh := 2, predicted_cost := 2, confidence_score := 17 / 20 },
   { date := 2, predicted_kwh := 2, predicted_cost := 2, confidence_score := 17 / 20 }]

/-- The concrete 2-day run backing several witnesses below:
`constPredictor 2` over `[evDay0]` at tariff 1 yields exactly `pts2`. -/
lemma predictNextDays_pts2 :
    predictNextDays (constPredictor 2) [evDay0] 2 1 = .ok pts2 := by
  have hne : aggregateDaily [evDay0] ≠ [] := by decide
  rw [predictNextDays_ok (constPredictor 2) [evDay0] 2 1 rfl hne,
    forecastLoop_const 2 1 2 2 (forecastContext [evDay0])
      (by norm_num [roundTo, roundHalfEven]) (by norm_num [roundTo, roundHalfEven])
      2 1 _]
  simp [pts2, forecastContext_evDay0_lastDate, List.range_succ]
  norm_num

/-- Witness for amended C4 on a concrete run. -/
theorem c4_cost_equation_witness :
    predictNextDays (constPredictor 2) [evDay0] 2 1 = .ok pts2 ∧
    (∀ pt ∈ pts2, ∃ raw, pt.predicted_kwh = roundTo 4 raw ∧
      pt.predicted_cost = roundTo 2 (raw * 1)) :=
  ⟨predictNextDays_pts2,
   c4_cost_equation (constPredictor 2) [evDay0] 2 1 pts2 predictNextDays_pts2⟩

/-! ## Claim C5: monthly aggregation identity -/

lemma roundHalfEven_intCast (z : ℤ) : roundHalfEven (z : ℚ) = z := by
  unfold roundHalfEven
  simp [Int.floor_intCast]

lemma roundTo_two_div100 (z : ℤ) : roundTo 2 ((z : ℚ) / 100) = (z : ℚ) / 100 := by
  have h : ((z : ℚ) / 100) * 10 ^ 2 = (z : ℚ) := by
    rw [show ((10 : ℚ) ^ 2) = 100 by norm_num]
    exact div_mul_cancel₀ _ (by norm_num)
  unfold roundTo
  rw [h, roundHalfEven_intCast, show ((10 : ℚ) ^ 2) = 100 by norm_num]

lemma sum_div100 (l : List ℚ) (h : ∀ x ∈ l, ∃ z : ℤ, x = (z : ℚ) / 100) :
    ∃ Z : ℤ, l.sum = (Z : ℚ) / 100 := by
  induction l with
  | nil => exact ⟨0, by norm_num⟩
  | cons a as ih =>
    obtain ⟨z, hz⟩ := h a (by simp)
    obtain ⟨Z, hZ⟩ := ih fun x hx => h x (by simp [hx])
    refine ⟨z + Z, ?_⟩
    rw [List.sum_cons, hz, hZ]
    push_cast
    ring

lemma sum_map_const (n : ℕ) (c : ℚ) :
    ((List.range n).map fun _ => c).sum = n * c := by
  induction n with
  | zero => simp
  | succ m ih =>
    rw [List.range_succ, List.map_append, List.sum_append, ih]
    push_cast
    simp
    ring

/-- A predictor predicting 0.1111 kWh every day. -/
def c5Pred : Predictor := constPredictor (1111 / 10000)

/-- The 30 forecast points `c5Pred` produces over `[evDay0]` at tariff 1. -/
def c5Pts : List ForecastPoint :=
  (List.range 30).map fun j =>
    { date := (forecastContext [evDay0]).lastDate + (1 + j),
      predicted_kwh := 1111 / 10000, predicted_cost := 11 / 100,
      confidence_score := 85 / 100 }

lemma c5PtsEq : predictNextDays c5Pred [evDay0] 30 1 = .ok c5Pts := by
  have hne : aggregateDaily [evDay0] ≠ [] := by decide
  rw [predictNextDays_ok c5Pred [evDay0] 30 1 rfl hne]
  exact congrArg Except.ok
    (forecastLoop_const (1111 / 10000) 1 (1111 / 10000) (11 / 100)
      (forecastContext [evDay0]) (by norm_num [roundTo, roundHalfEven])
      (by norm_num [roundTo, roundHalfEven]) 30 1 _)

/-- **C5 counterexample**: with 30 daily predictions of 0.1111 kWh the 30-day
energies sum to 3.333, but the monthly forecast reports
`round(3.333, 2) = 3.33` — the monthly energy total is the *re-rounded* sum,
not the sum itself. -/
theorem c5_counterexample :
    (predictMonthly c5Pred [evDay0] 1).toOption.map (·.predicted_monthly_kwh)
      ≠ (predictNextDays c5Pred [evDay0] 30 1).toOption.map
          (fun pts => (pts.map (·.predicted_kwh)).sum) := by
  unfold predictMonthly
  rw [c5PtsEq]
  have hsum : (c5Pts.map (·.predicted_kwh)).sum = 3333 / 1000 := by
    unfold c5Pts
    rw [List.map_map]
    have : ((fun pt : ForecastPoint => pt.predicted_kwh) ∘ fun j : ℕ =>
        ({ date := (forecastContext [evDay0]).lastDate + (1 + j),
           predicted_kwh := 1111 / 10000, predicted_cost := 11 / 100,
           confidence_score := 85 / 100 } : ForecastPoint))
        = fun _ => (1111 : ℚ) / 10000 := rfl
    rw [this, sum_map_const]
    norm_num
  simp only [Except.map, Except.toOption, Option.map_some', ne_eq,
    Option.some.injEq]
  rw [hsum]
  norm_num [roundTo, roundHalfEven]

/-- **C5 (amended)**: the monthly forecast is a fixed 30-day run of the daily
forecaster (no separate monthly model): its energy total is the 30 daily
energies' sum *re-rounded to 2 decimals*, its cost total is exactly the sum of
the 30 daily costs (each already a whole number of cents, so the final
2-decimal rounding is the identity there), and its point list is the 30-day
forecast itself. -/
theorem c5_monthly_aggregation (p : Predictor) (events : List EnergyEvent)
    (t : ℚ) (pts : List ForecastPoint)
    (hok : predictNextDays p events 30 t = .ok pts) :
    predictMonthly p events t = .ok
      { predicted_monthly_kwh := roundTo 2 (pts.map (·.predicted_kwh)).sum
        predicted_monthly_cost := (pts.map (·.predicted_cost)).sum
        daily_predictions := pts } := by
  obtain ⟨prev, hpts⟩ := predictNextDays_ok_inv p events 30 t pts hok
  have hcost : ∀ x ∈ pts.map (·.predicted_cost), ∃ z : ℤ, x = (z : ℚ) / 100 := by
    intro x hx
    rw [List.mem_map] at hx
    obtain ⟨pt, hpt, rfl⟩ := hx
    obtain ⟨raw, _, hc, _⟩ :=
      forecastLoop_mem_spec p (forecastContext events) t 30 1 prev pt (hpts ▸ hpt)
    refine ⟨roundHalfEven (raw * t * 10 ^ 2), ?_⟩
    rw [hc]
    unfold roundTo
    norm_num
  obtain ⟨Z, hZ⟩ := sum_div100 _ hcost
  unfold predictMonthly
  rw [hok]
  simp only [Except.map, Except.ok.injEq, MonthlyForecast.mk.injEq]
  refine ⟨trivial, ?_, trivial⟩
  rw [hZ, roundTo_two_div100]

/-- Witness for amended C5 on the concrete 30-day run of `c5Pred`. -/
theorem c5_monthly_aggregation_witness :
    predictNextDays c5Pred [evDay0] 30 1 = .ok c5Pts ∧
    predictMonthly c5Pred [evDay0] 1 = .ok
      { predicted_monthly_kwh := roundTo 2 (c5Pts.map (·.predicted_kwh)).sum
        predicted_monthly_cost := (c5Pts.map (·.predicted_cost)).sum
        daily_predictions := c5Pts } :=
  ⟨c5PtsEq, c5_monthly_aggregation c5Pred [evDay0] 1 c5Pts c5PtsEq⟩

/-! ## Claim C6: recursive feedback of prev_day_kwh -/

/-- Each loop point is the step body applied to the previous *emitted* rounded
prediction (or to the seed for the first day). -/
lemma forecastLoop_getD_step (p : Predictor) (ctx : ForecastCtx) (t : ℚ) :
    ∀ k day prev j, j < k →
      (forecastLoop p ctx t k day prev).getD j default
        = mkForecastPoint p ctx t (day + j)
            (if j = 0 then prev
             else ((forecastLoop p ctx t k day prev).getD (j - 1)
                default).predicted_kwh) := by
  intro k
  induction k with
  | zero => intro day prev j hj; omega
  | succ n ih =>
    intro day prev j hj
    cases j with
    | zero =>
      simp only [forecastLoop, List.getD_cons_zero, if_pos]
      norm_num
    | succ m =>
      simp only [forecastLoop, List.getD_cons_succ, Nat.succ_ne_zero, if_false,
        Nat.add_sub_cancel]
      rw [ih (day + 1) _ m (by omega)]
      cases m with
      | zero =>
        simp only [if_pos, List.getD_cons_zero]
      | succ r =>
        simp only [Nat.succ_ne_zero, if_false, List.getD_cons_succ,
          Nat.add_sub_cancel]
        congr 1
        omega

/-- **C6**: in a successful forecast, the point of horizon step 1 is built with
`prev_day_kwh` equal to the last observed daily total, and the point of every
later step `k + 1` is built with `prev_day_kwh` equal to the forecaster's own
emitted `predicted_kwh` of step `k`. -/
theorem c6_recursive_feedback (p : Predictor) (events : List EnergyEvent)
    (N : ℕ) (t : ℚ) (pts : List ForecastPoint)
    (hne : aggregateDaily events ≠ [])
    (hok : predictNextDays p events N t = .ok pts) :
    ∀ k, k < N →
      pts.getD k default
        = mkForecastPoint p (forecastContext events) t (k + 1)
            (if k = 0 then ((aggregateDaily events).getLast hne).total_kwh
             else (pts.getD (k - 1) default).predicted_kwh) := by
  have hp : p.is_trained = true := by
    cases hb : p.is_trained
    · simp only [predictNextDays, hb] at hok
      simp at hok
    · rfl
  rw [predictNextDays_ok p events N t hp hne, Except.ok.injEq] at hok
  subst hok
  intro k hk
  rw [forecastLoop_getD_step p (forecastContext events) t N 1 _ k hk]
  congr 1
  omega

/-- Witness for C6 on the concrete 2-day run: step 1 uses the observed total
(5 kWh on day 0), step 2 uses step 1's own emitted prediction. -/
theorem c6_recursive_feedback_witness :
    aggregateDaily [evDay0] ≠ [] ∧
    predictNextDays (constPredictor 2) [evDay0] 2 1 = .ok pts2 ∧
    (∀ k, k < 2 →
      pts2.getD k default
        = mkForecastPoint (constPredictor 2) (forecastContext [evDay0]) 1 (k + 1)
            (if k = 0 then ((aggregateDaily [evDay0]).getLast (by decide)).total_kwh
             else (pts2.getD (k - 1) default).predicted_kwh)) :=
  ⟨by decide, predictNextDays_pts2,
   c6_recursive_feedback (constPredictor 2) [evDay0] 2 1 pts2 (by decide)
     predictNextDays_pts2⟩

/-! ## Claim C1: causality of lag features -/

lemma getD_range_map {α : Type} (f : ℕ → α) (n i : ℕ) (hi : i < n) (d : α) :
    ((List.range n).map f).getD i d = f i := by
  rw [List.getD_eq_getElem?_getD, List.getElem?_map, List.getElem?_range hi]
  rfl

lemma aggregateDaily_prevDay (events : List EnergyEvent) (i : ℕ)
    (hi : i < (sortedDates events).length) :
    ((aggregateDaily events).getD i default).prev_day_kwh
      = (prevDayCol (dailyTotals events)).getD i 0 := by
  unfold aggregateDaily
  rw [getD_range_map _ _ i hi]

lemma aggregateDaily_prevWeek (events : List EnergyEvent) (i : ℕ)
    (hi : i < (sortedDates events).length) :
    ((aggregateDaily events).getD i default).prev_week_kwh
      = (prevWeekCol (dailyTotals events)).getD i 0 := by
  unfold aggregateDaily
  rw [getD_range_map _ _ i hi]

lemma aggregateDaily_avg7 (events : List EnergyEvent) (i : ℕ)
    (hi : i < (sortedDates events).length) :
    ((aggregateDaily events).getD i default).avg_last_7days
      = rollMean 7 (dailyTotals events) i := by
  unfold aggregateDaily
  rw [getD_range_map _ _ i hi]

lemma aggregateDaily_avg30 (events : List EnergyEvent) (i : ℕ)
    (hi : i < (sortedDates events).length) :
    ((aggregateDaily events).getD i default).avg_last_30days
      = rollMean 30 (dailyTotals events) i := by
  unfold aggregateDaily
  rw [getD_range_map _ _ i hi]

/-- `bfill` leaves present cells untouched. -/
lemma bfill0_getD_some : ∀ (l : List (Option ℚ)) (i : ℕ) (v : ℚ),
    l.getD i none = some v → (bfill0 l).getD i 0 = v := by
  intro l
  induction l with
  | nil =>
    intro i v h
    simp [List.getD] at h
  | cons a as ih =>
    intro i v h
    cases i with
    | zero =>
      rw [List.getD_cons_zero] at h
      subst h
      rfl
    | succ m =>
      rw [List.getD_cons_succ] at h
      show (bfill0 as).getD m 0 = v
      exact ih m v h

lemma dailyTotals_length (events : List EnergyEvent) :
    (dailyTotals events).length = (sortedDates events).length := by
  unfold dailyTotals
  rw [List.length_map]

lemma prevDayCol_getD (totals : List ℚ) (i : ℕ) (h1 : 1 ≤ i)
    (hn : i < totals.length) :
    (prevDayCol totals).getD i 0 = totals.getD (i - 1) 0 := by
  apply bfill0_getD_some
  rw [getD_range_map _ _ i hn, if_pos h1]

lemma prevWeekCol_getD (totals : List ℚ) (i : ℕ) (h7 : 7 ≤ i)
    (hn : i < totals.length) :
    (prevWeekCol totals).getD i 0 = totals.getD (i - 7) 0 := by
  apply bfill0_getD_some
  rw [getD_range_map _ _ i hn, if_pos h7]

/-- In steady state (`i ≥ 7`) the 7-day rolling mean at row `i` is the plain
average of the seven totals at rows `i-6 … i`. -/
lemma rollMean_seven (totals : List ℚ) (i : ℕ) (h7 : 7 ≤ i)
    (hn : i < totals.length) :
    rollMean 7 totals i = (((totals.drop (i - 6)).take 7).sum) / 7 := by
  unfold rollMean tailN listMean
  have hlen : (totals.take (i + 1)).length = i + 1 := by
    rw [List.length_take]
    omega
  rw [hlen, List.drop_take,
    show i + 1 - (i + 1 - 7) = 7 from by omega,
    show i + 1 - 7 = i - 6 from by omega]
  have hlen2 : ((totals.drop (i - 6)).take 7).length = 7 := by
    rw [List.length_take, List.length_drop]
    omega
  rw [hlen2]
  norm_num

/-- **C1 counterexample**: two histories that agree on all events up to day 0
(`[evDay0]` is a prefix of `[evDay0, evDay1]`; the added event is on the later
day 1) give *different* `prev_day_kwh` at row 0: `fillna(method='bfill')`
propagates a later row's lag value backwards, so a past feature value changes
when a future record is added. -/
theorem c1_counterexample :
    eventDate evDay0 = 0 ∧ eventDate evDay1 = 1 ∧
    ((aggregateDaily [evDay0]).getD 0 default).prev_day_kwh = 0 ∧
    ((aggregateDaily [evDay0, evDay1]).getD 0 default).prev_day_kwh = 5 ∧
    ((aggregateDaily [evDay0]).getD 0 default).prev_day_kwh
      ≠ ((aggregateDaily [evDay0, evDay1]).getD 0 default).prev_day_kwh := by
  have h1 : ((aggregateDaily [evDay0]).getD 0 default).prev_day_kwh = 0 := rfl
  have h2 : ((aggregateDaily [evDay0, evDay1]).getD 0 default).prev_day_kwh = 5 := by
    simp [aggregateDaily, sortedDates, dailyTotals, prevDayCol, bfill0, firstSome,
      eventDate, insertDate, evDay0, evDay1, List.filter]
  refine ⟨rfl, rfl, h1, h2, ?_⟩
  rw [h1, h2]
  norm_num

/-- **C1 (amended)**: causality holds for the rows where the lag values are
defined without back-fill: at every row `i ≥ 7`, `prev_day_kwh` is exactly the
total of row `i - 1`, `prev_week_kwh` exactly the total of row `i - 7`, the
7-day trailing mean is the average of the totals at rows `i-6 … i` (it includes
the current row), and the 30-day trailing mean is the mean of the tail of the
first `i + 1` totals — each a function of rows at index ≤ `i` only, with the
`prev_*` features functions of rows at index < `i`.  (At rows 0–6 the shipped
`bfill` policy copies values backwards from later rows, where causality fails —
see the counterexample.) -/
theorem c1_lag_causality (events : List EnergyEvent) (i : ℕ)
    (h7 : 7 ≤ i) (hn : i < (aggregateDaily events).length) :
    ((aggregateDaily events).getD i default).prev_day_kwh
        = (dailyTotals events).getD (i - 1) 0 ∧
    ((aggregateDaily events).getD i default).prev_week_kwh
        = (dailyTotals events).getD (i - 7) 0 ∧
    ((aggregateDaily events).getD i default).avg_last_7days
        = (((dailyTotals events).drop (i - 6)).take 7).sum / 7 ∧
    ((aggregateDaily events).getD i default).avg_last_30days
        = listMean (tailN 30 ((dailyTotals events).take (i + 1))) := by
  rw [aggregateDaily_length] at hn
  have hlen := dailyTotals_length events
  refine ⟨?_, ?_, ?_, ?_⟩
  · rw [aggregateDaily_prevDay events i hn,
      prevDayCol_getD _ _ (by omega) (by omega)]
  · rw [aggregateDaily_prevWeek events i hn,
      prevWeekCol_getD _ _ h7 (by omega)]
  · rw [aggregateDaily_avg7 events i hn,
      rollMean_seven _ _ h7 (by omega)]
  · rw [aggregateDaily_avg30 events i hn]
    rfl

/-- Witness for amended C1 at row 7 of an 8-day history. -/
theorem c1_lag_causality_witness :
    7 ≤ 7 ∧ 7 < (aggregateDaily weekEvents).length ∧
    (((aggregateDaily weekEvents).getD 7 default).prev_day_kwh
        = (dailyTotals weekEvents).getD 6 0 ∧
     ((aggregateDaily weekEvents).getD 7 default).prev_week_kwh
        = (dailyTotals weekEvents).getD 0 0 ∧
     ((aggregateDaily weekEvents).getD 7 default).avg_last_7days
        = (((dailyTotals weekEvents).drop 1).take 7).sum / 7 ∧
     ((aggregateDaily weekEvents).getD 7 default).avg_last_30days
        = listMean (tailN 30 ((dailyTotals weekEvents).take 8))) :=
  ⟨by norm_num, by decide,
   c1_lag_causality weekEvents 7 (by norm_num) (by decide)⟩
